import Mathlib

/-!
Shallow embedding of the raj-app service worker (`src/sw.js`).

The file contains two service-worker variants separated by a document
marker: an enhanced "v2" worker (cache name `raj-app-v2`, Firebase SDK
handling, navigation fallback) and an earlier "v1" worker (cache name
`raj-app-v1`).  Both are embedded below.

Modelling conventions:
* A captured HTTP response is a record of status, status text, response
  type and body string (string equality models byte identity of bodies).
* The Cache Store is an association list from URL-string keys to
  responses; `caches.match` is key lookup, `cache.put` is
  insert-or-overwrite.
* The network is a function from requests (or URL strings, for install)
  to `Option Response`; `none` models a rejected fetch (no connectivity).
* JavaScript `String.prototype.includes` / `startsWith` are modelled by
  executable substring / pre-match tests on the character lists.
* Promise plumbing is flattened: each handler is a pure function from
  (request, network, cache) to an outcome plus the cache state after any
  writes by the handler.  `Outcome.passthrough` means the handler returned
  without calling `respondWith`; `Outcome.respondAbsent` means the
  promise handed to `respondWith` resolved with `undefined`;
  `Outcome.respondError` means that promise rejected.
-/

/-- JavaScript response types (`Response.type`).  `basic` is a normal
same-origin response; `opq` models `"opaque"`, `opqRedirect` models
`"opaqueredirect"`, `dflt` models `"default"` (synthesized responses). -/
inductive RType where
  | basic
  | cors
  | dflt
  | err
  | opq
  | opqRedirect
deriving DecidableEq, Repr

/-- A captured HTTP response: status code, status text, response type and
body.  The body string stands for the body bytes. -/
structure Response where
  status : Nat
  statusText : String
  rtype : RType
  body : String
deriving DecidableEq, Repr

/-- `Response.ok`: status in the 2xx range (used by `cache.addAll`). -/
def Response.ok (r : Response) : Bool :=
  decide (200 ≤ r.status ∧ r.status ≤ 299)

/-- An incoming fetch-event request: full URL (also the cache key),
parsed hostname and pathname, and request mode (`"navigate"` or not). -/
structure Request where
  url : String
  hostname : String
  pathname : String
  mode : String
deriving DecidableEq, Repr

/-- Does the character list `p` occur as an initial segment of `s`? -/
def strHasPfx : List Char → List Char → Bool
  | [], _ => true
  | _ :: _, [] => false
  | a :: as, b :: bs => a == b && strHasPfx as bs

/-- Does the character list `pat` occur as a contiguous sublist of `s`? -/
def listContainsSub (pat : List Char) : List Char → Bool
  | [] => strHasPfx pat []
  | c :: rest => strHasPfx pat (c :: rest) || listContainsSub pat rest

/-- Model of JavaScript `s.includes(pat)`: substring containment. -/
def jsIncludes (s pat : String) : Bool :=
  listContainsSub pat.data s.data

/-- Model of JavaScript `s.startsWith(pat)`. -/
def jsStartsWith (s pat : String) : Bool :=
  strHasPfx pat.data s.data

/-- The Cache Store: an association list from URL keys to responses. -/
abbrev Cache := List (String × Response)

/-- `caches.match`: look up a key in the store. -/
def lookupCache : Cache → String → Option Response
  | [], _ => none
  | (k, r) :: t, key => if k == key then some r else lookupCache t key

/-- `cache.put`: insert or overwrite the entry for a key. -/
def putCache : Cache → String → Response → Cache
  | [], k, r => [(k, r)]
  | (k2, r2) :: t, k, r =>
      if k2 == k then (k, r) :: t else (k2, r2) :: putCache t k r

/-- `CACHE_NAME` of the v2 worker (`src/sw.js` line 4). -/
def CACHE_NAME : String := "raj-app-v2"

/-- `BASE_PATH` (`src/sw.js` line 5). -/
def BASE_PATH : String := "/raj-app"

/-- `urlsToCache` of the v2 worker (`src/sw.js` lines 8-18): app shell
plus pinned Firebase SDK assets. -/
def urlsToCache : List String :=
  [ BASE_PATH ++ "/",
    BASE_PATH ++ "/index.html",
    BASE_PATH ++ "/manifest.json",
    BASE_PATH ++ "/icons/icons-192x192.jpg",
    BASE_PATH ++ "/icons/icons-512x512.jpg",
    "https://www.gstatic.com/firebasejs/9.23.0/firebase-app-compat.js",
    "https://www.gstatic.com/firebasejs/9.23.0/firebase-auth-compat.js",
    "https://www.gstatic.com/firebasejs/9.23.0/firebase-firestore-compat.js" ]

/-- `cacheName` of the v1 worker (second document in `src/sw.js`). -/
def cacheNameV1 : String := "raj-app-v1"

/-- `urlsToCache` of the v1 worker: app shell only. -/
def urlsToCacheV1 : List String :=
  [ BASE_PATH ++ "/",
    BASE_PATH ++ "/index.html",
    BASE_PATH ++ "/manifest.json",
    BASE_PATH ++ "/icons/icons-192x192.jpg",
    BASE_PATH ++ "/icons/icons-512x512.jpg" ]

/-- Result of handing a promise to `event.respondWith` (or not calling
it at all). -/
inductive Outcome where
  | passthrough
  | respond (r : Response)
  | respondAbsent
  | respondError
deriving DecidableEq, BEq, Repr

/-- What a fetch-event handler produced: the outcome delivered to the
page, and the cache store state after any writes by the handler. -/
structure FetchResult where
  outcome : Outcome
  cacheAfter : Cache
deriving DecidableEq

/-- The excluded-host test of the v2 fetch handler (`src/sw.js` lines
64-69): six `hostname.includes(...)` checks joined by `||`. -/
def excludedV2 (req : Request) : Bool :=
  jsIncludes req.hostname "firebase.googleapis.com" ||
  jsIncludes req.hostname "firestore.googleapis.com" ||
  jsIncludes req.hostname "identitytoolkit.googleapis.com" ||
  jsIncludes req.hostname "securetoken.googleapis.com" ||
  jsIncludes req.hostname "googleapis.com" ||
  jsIncludes req.hostname "gstatic.com"

/-- The SDK-asset sub-test inside the excluded branch (`src/sw.js` line
72): gstatic host and a pathname containing `firebase`. -/
def sdkAssetV2 (req : Request) : Bool :=
  jsIncludes req.hostname "gstatic.com" && jsIncludes req.pathname "firebase"

/-- The synthesized offline response of the v2 handler (`src/sw.js`
lines 134-137): a constructed response with body
"Offline - resource not available", status 503 and status text
"Service Unavailable".  A constructed response has type "default". -/
def offlineResponse : Response :=
  { status := 503
    statusText := "Service Unavailable"
    rtype := RType.dflt
    body := "Offline - resource not available" }

/-- The v2 fetch handler (`src/sw.js` lines 60-140).

* Excluded host and SDK asset: cache-first without caching the network
  result; a rejected network fetch on a cache miss rejects the
  `respondWith` promise (no catch on that path).
* Excluded host otherwise: return without `respondWith` (passthrough).
* App asset: cache-first; on miss fetch; a 200 `basic` response is
  cloned, stored under the request key and returned; any other response
  is returned uncached.  On fetch rejection the trailing catch returns
  `caches.match(BASE_PATH + "/index.html") || caches.match(BASE_PATH + "/")`
  for navigations — `||` short-circuits on the first promise, so only
  the index lookup is consulted — and the synthesized offline response
  otherwise. -/
def handleFetchV2 (net : Request → Option Response) (req : Request)
    (c : Cache) : FetchResult :=
  if excludedV2 req then
    if sdkAssetV2 req then
      match lookupCache c req.url with
      | some r => ⟨Outcome.respond r, c⟩
      | none =>
        match net req with
        | some r => ⟨Outcome.respond r, c⟩
        | none => ⟨Outcome.respondError, c⟩
    else ⟨Outcome.passthrough, c⟩
  else
    match lookupCache c req.url with
    | some r => ⟨Outcome.respond r, c⟩
    | none =>
      match net req with
      | some r =>
        if r.status == 200 && r.rtype == RType.basic then
          ⟨Outcome.respond r, putCache c req.url r⟩
        else
          ⟨Outcome.respond r, c⟩
      | none =>
        if req.mode == "navigate" then
          match lookupCache c (BASE_PATH ++ "/index.html") with
          | some r => ⟨Outcome.respond r, c⟩
          | none => ⟨Outcome.respondAbsent, c⟩
        else ⟨Outcome.respond offlineResponse, c⟩

/-- The excluded-URL test of the v1 fetch handler: three
`request.url.includes(...)` checks on the full URL. -/
def excludedV1 (req : Request) : Bool :=
  jsIncludes req.url "firestore.googleapis.com" ||
  jsIncludes req.url "firebase.googleapis.com" ||
  jsIncludes req.url "googleapis.com"

/-- The v1 fetch handler (second document in `src/sw.js`): passthrough
for excluded URLs; otherwise cache-first, caching 200 `basic` network
responses; the inner catch logs and returns `undefined`, so on fetch
rejection the `respondWith` promise resolves with no response. -/
def handleFetchV1 (net : Request → Option Response) (req : Request)
    (c : Cache) : FetchResult :=
  if excludedV1 req then ⟨Outcome.passthrough, c⟩
  else
    match lookupCache c req.url with
    | some r => ⟨Outcome.respond r, c⟩
    | none =>
      match net req with
      | some r =>
        if r.status == 200 && r.rtype == RType.basic then
          ⟨Outcome.respond r, putCache c req.url r⟩
        else
          ⟨Outcome.respond r, c⟩
      | none => ⟨Outcome.respondAbsent, c⟩

/-- Per-host policy class of the v2 handler, read off the same
conditions the code tests in the same order. -/
inductive ReqClass where
  | passthrough
  | sdkCacheFirst
  | appAsset
deriving DecidableEq, BEq, Repr

/-- Classification step of the v2 fetch handler. -/
def classifyV2 (req : Request) : ReqClass :=
  if excludedV2 req then
    if sdkAssetV2 req then ReqClass.sdkCacheFirst else ReqClass.passthrough
  else ReqClass.appAsset

/-- `cache.addAll` (platform primitive used at `src/sw.js` line 27):
atomic bulk insert; it succeeds if and only if every URL fetches to an
ok response, in which case all entries are stored; on any failure no
entry is stored. -/
def cacheAddAll (net : String → Option Response) (urls : List String)
    (c : Cache) : Option Cache :=
  if urls.all (fun u =>
      match net u with
      | some r => r.ok
      | none => false) then
    some (urls.foldl (fun acc u =>
      match net u with
      | some r => putCache acc u r
      | none => acc) c)
  else none

/-- Result of the install handler: cache state afterwards, whether
`self.skipWaiting()` was requested, whether the failure path logged an
error, and whether the promise handed to `event.waitUntil` resolved
(i.e. whether the host considers the install to have completed
successfully). -/
structure InstallResult where
  cacheAfter : Cache
  skipWaitingRequested : Bool
  errorLogged : Bool
  installCompleted : Bool
deriving DecidableEq

/-- The v2 install handler (`src/sw.js` lines 21-37): `addAll` the
manifest; on success request skip-waiting; on failure log the error —
the `catch` swallows the rejection, so the `waitUntil` promise resolves
in both branches and the install completes either way. -/
def installHandlerV2 (net : String → Option Response) (c : Cache) :
    InstallResult :=
  match cacheAddAll net urlsToCache c with
  | some c2 => ⟨c2, true, false, true⟩
  | none => ⟨c, false, true, true⟩

/-- First v2 activate listener (`src/sw.js` lines 40-57): delete every
store whose name differs from `CACHE_NAME`.  Modelled on the list of
existing store names, returning the surviving names. -/
def activateFirstV2 (stores : List String) : List String :=
  stores.filter (fun n => n == CACHE_NAME)

/-- Second v2 activate listener (`src/sw.js` lines 228-242): delete
every store whose name starts with `"raj-app-"` and differs from
`CACHE_NAME`. -/
def activateSecondV2 (stores : List String) : List String :=
  stores.filter (fun n => !(jsStartsWith n "raj-app-" && !(n == CACHE_NAME)))

/-- Combined effect of the two v2 activate listeners. -/
def activateHandlerV2 (stores : List String) : List String :=
  activateSecondV2 (activateFirstV2 stores)

/-! ## Basic lemmas about the cache store -/

theorem lookup_put_self (c : Cache) (k : String) (r : Response) :
    lookupCache (putCache c k r) k = some r := by
  induction c with
  | nil => simp [putCache, lookupCache]
  | cons hd t ih =>
    obtain ⟨k2, r2⟩ := hd
    by_cases h : (k2 == k) = true
    · simp [putCache, h, lookupCache]
    · simp only [putCache, h, Bool.false_eq_true, if_false, lookupCache]
      simp only [Bool.not_eq_true] at h
      simp [h, ih]

theorem lookup_put_of_ne (c : Cache) (k k2 : String) (r : Response)
    (h : (k2 == k) = false) :
    lookupCache (putCache c k r) k2 = lookupCache c k2 := by
  induction c with
  | nil =>
    have hne : ¬k = k2 := by
      simp only [beq_eq_false_iff_ne] at h
      exact fun hk => h hk.symm
    simp [putCache, lookupCache, hne]
  | cons hd t ih =>
    obtain ⟨k3, r3⟩ := hd
    by_cases h3 : (k3 == k) = true
    · have hk : k3 = k := by simpa using h3
      subst hk
      have h2 : (k3 == k2) = false := by
        simp only [beq_eq_false_iff_ne] at h ⊢
        exact fun hk2 => h hk2.symm
      simp [putCache, lookupCache, h2]
    · simp only [Bool.not_eq_true] at h3
      simp only [putCache, h3, Bool.false_eq_true, if_false, lookupCache]
      by_cases h4 : (k3 == k2) = true
      · simp [h4]
      · simp only [Bool.not_eq_true] at h4
        simp [h4, ih]

theorem lookup_put_isSome (c : Cache) (k k2 : String) (r : Response)
    (h : (lookupCache c k).isSome = true) :
    (lookupCache (putCache c k2 r) k).isSome = true := by
  by_cases hk : (k == k2) = true
  · have : k = k2 := by simpa using hk
    subst this
    simp [lookup_put_self]
  · simp only [Bool.not_eq_true] at hk
    rw [lookup_put_of_ne c k2 k r hk]
    exact h

/-- The folding step used by `cacheAddAll`. -/
def addStep (net : String → Option Response) (acc : Cache) (u : String) :
    Cache :=
  match net u with
  | some r => putCache acc u r
  | none => acc

theorem lookup_fold_preserve (net : String → Option Response)
    (urls : List String) (c : Cache) (k : String)
    (h : (lookupCache c k).isSome = true) :
    (lookupCache (urls.foldl (addStep net) c) k).isSome = true := by
  induction urls generalizing c with
  | nil => simpa using h
  | cons u rest ih =>
    simp only [List.foldl_cons]
    apply ih
    unfold addStep
    cases hnu : net u with
    | none => exact h
    | some r => exact lookup_put_isSome c k u r h

theorem lookup_fold_mem (net : String → Option Response)
    (urls : List String) (c : Cache) (u : String) (hu : u ∈ urls)
    (hnet : ∀ v ∈ urls, (net v).isSome = true) :
    (lookupCache (urls.foldl (addStep net) c) u).isSome = true := by
  induction urls generalizing c with
  | nil => cases hu
  | cons v rest ih =>
    simp only [List.foldl_cons]
    rcases List.mem_cons.mp hu with hv | hrest
    · subst hv
      have hs : (net u).isSome = true := hnet u (List.mem_cons_self u rest)
      obtain ⟨r, hr⟩ := Option.isSome_iff_exists.mp hs
      apply lookup_fold_preserve
      unfold addStep
      rw [hr]
      simp [lookup_put_self]
    · exact ih (addStep net c v) hrest
        (fun w hw => hnet w (List.mem_cons_of_mem v hw))

theorem cacheAddAll_some_lookup (net : String → Option Response)
    (urls : List String) (c c2 : Cache)
    (h : cacheAddAll net urls c = some c2) :
    ∀ u ∈ urls, (lookupCache c2 u).isSome = true := by
  intro u hu
  unfold cacheAddAll at h
  split at h
  case isTrue hall =>
    have hc2 : urls.foldl (addStep net) c = c2 := by
      simpa [addStep] using h
    subst hc2
    apply lookup_fold_mem net urls c u hu
    intro v hv
    have := List.all_eq_true.mp hall v hv
    cases hnv : net v with
    | none => rw [hnv] at this; simp at this
    | some r => simp
  case isFalse => cases h

theorem cacheAddAll_fail (net : String → Option Response)
    (urls : List String) (c : Cache) (u : String) (hu : u ∈ urls)
    (hfail : net u = none) :
    cacheAddAll net urls c = none := by
  have hall : (urls.all (fun v =>
      match net v with
      | some r => r.ok
      | none => false)) = false := by
    cases hcase : urls.all (fun v =>
        match net v with
        | some r => r.ok
        | none => false) with
    | false => rfl
    | true =>
      have := List.all_eq_true.mp hcase u hu
      rw [hfail] at this
      cases this
  unfold cacheAddAll
  rw [hall]
  simp

/-! ## Concrete fixtures used by witnesses and counterexamples -/

/-- A network with no connectivity: every fetch rejects. -/
def netNone : Request → Option Response := fun _ => none

/-- A URL-keyed network with no connectivity (install-time fetches). -/
def netNoneU : String → Option Response := fun _ => none

/-- A fully available URL-keyed network returning a 200 basic response. -/
def netOkU : String → Option Response :=
  fun _ => some { status := 200, statusText := "OK", rtype := RType.basic,
                  body := "seed bytes" }

/-- The empty cache store. -/
def emptyCache : Cache := []

/-- A plain same-origin app-asset request (non-navigation). -/
def reqOther : Request :=
  { url := "https://drono-coder.github.io/raj-app/data/xyz.json"
    hostname := "drono-coder.github.io"
    pathname := "/raj-app/data/xyz.json"
    mode := "cors" }

/-- A Firebase SDK asset request served from gstatic. -/
def reqSdk : Request :=
  { url := "https://www.gstatic.com/firebasejs/9.23.0/firebase-app-compat.js"
    hostname := "www.gstatic.com"
    pathname := "/firebasejs/9.23.0/firebase-app-compat.js"
    mode := "no-cors" }

/-- A Firestore API request (excluded host, not an SDK asset). -/
def reqApi : Request :=
  { url := "https://firestore.googleapis.com/v1/projects/raj/databases"
    hostname := "firestore.googleapis.com"
    pathname := "/v1/projects/raj/databases"
    mode := "cors" }

/-- A navigation request to an app page. -/
def reqNav : Request :=
  { url := "https://drono-coder.github.io/raj-app/page"
    hostname := "drono-coder.github.io"
    pathname := "/raj-app/page"
    mode := "navigate" }

/-- A request to a hostname that merely contains "gstatic.com" as a
substring without being that domain. -/
def reqSpoof : Request :=
  { url := "https://gstatic.com.attacker.example/payload.js"
    hostname := "gstatic.com.attacker.example"
    pathname := "/payload.js"
    mode := "cors" }

/-- A cached copy of the gstatic SDK asset. -/
def sdkResp : Response :=
  { status := 200, statusText := "OK", rtype := RType.basic
    body := "firebase sdk bytes" }

/-- A cached copy of the app shell document. -/
def shellResp : Response :=
  { status := 200, statusText := "OK", rtype := RType.basic
    body := "shell document bytes" }

/-- A cached copy of the root document. -/
def rootResp : Response :=
  { status := 200, statusText := "OK", rtype := RType.basic
    body := "root document bytes" }

/-- A store holding only the gstatic SDK asset. -/
def cacheWithSdk : Cache :=
  [("https://www.gstatic.com/firebasejs/9.23.0/firebase-app-compat.js",
    sdkResp)]

/-- A store holding the seeded shell document and root document. -/
def cacheShell : Cache :=
  [("/raj-app/index.html", shellResp), ("/raj-app/", rootResp)]

/-- A store holding the root document but not the shell document. -/
def cacheRootOnly : Cache := [("/raj-app/", rootResp)]

/-! ## Helper lemmas about the fetch handlers -/

theorem handleFetchV2_hit (net : Request → Option Response) (req : Request)
    (c : Cache) (r : Response) (hex : excludedV2 req = false)
    (hr : lookupCache c req.url = some r) :
    handleFetchV2 net req c = ⟨Outcome.respond r, c⟩ := by
  simp [handleFetchV2, hex, hr]

theorem handleFetchV2_miss_store (net : Request → Option Response)
    (req : Request) (c : Cache) (r : Response)
    (hex : excludedV2 req = false) (hmiss : lookupCache c req.url = none)
    (hnet : net req = some r)
    (hv : (r.status == 200 && (r.rtype == RType.basic)) = true) :
    handleFetchV2 net req c = ⟨Outcome.respond r, putCache c req.url r⟩ := by
  simp [handleFetchV2, hex, hmiss, hnet, hv]

theorem handleFetchV2_miss_nostore (net : Request → Option Response)
    (req : Request) (c : Cache) (r : Response)
    (hex : excludedV2 req = false) (hmiss : lookupCache c req.url = none)
    (hnet : net req = some r)
    (hv : (r.status == 200 && (r.rtype == RType.basic)) = false) :
    handleFetchV2 net req c = ⟨Outcome.respond r, c⟩ := by
  simp [handleFetchV2, hex, hmiss, hnet, hv]

theorem handleFetchV1_hit (net : Request → Option Response) (req : Request)
    (c : Cache) (r : Response) (hex : excludedV1 req = false)
    (hr : lookupCache c req.url = some r) :
    handleFetchV1 net req c = ⟨Outcome.respond r, c⟩ := by
  simp [handleFetchV1, hex, hr]

theorem handleFetchV1_miss_store (net : Request → Option Response)
    (req : Request) (c : Cache) (r : Response)
    (hex : excludedV1 req = false) (hmiss : lookupCache c req.url = none)
    (hnet : net req = some r)
    (hv : (r.status == 200 && (r.rtype == RType.basic)) = true) :
    handleFetchV1 net req c = ⟨Outcome.respond r, putCache c req.url r⟩ := by
  simp [handleFetchV1, hex, hmiss, hnet, hv]

theorem handleFetchV1_miss_nostore (net : Request → Option Response)
    (req : Request) (c : Cache) (r : Response)
    (hex : excludedV1 req = false) (hmiss : lookupCache c req.url = none)
    (hnet : net req = some r)
    (hv : (r.status == 200 && (r.rtype == RType.basic)) = false) :
    handleFetchV1 net req c = ⟨Outcome.respond r, c⟩ := by
  simp [handleFetchV1, hex, hmiss, hnet, hv]

/-- A network returning a fresh 200 basic asset for every request. -/
def assetResp : Response :=
  { status := 200, statusText := "OK", rtype := RType.basic
    body := "asset bytes" }

/-- A fully available request-keyed network. -/
def netBasic : Request → Option Response := fun _ => some assetResp

/-! ## Claims -/

/-- C1: for every app-asset request (one not matching an excluded host)
both fetch handlers consult the cache store first: on a hit the stored
response is returned and the store is unchanged; on a miss the network
is fetched, and exactly when the network response is a normal 200
response (status 200, response type basic — the normal same-origin
type, neither opaque nor a redirect) one copy is stored under the
request key; in all miss cases the network response itself is returned
to the caller, so its body is byte-identical to the network response
body. -/
theorem C1_app_asset_cache_first (net : Request → Option Response)
    (req : Request) (c : Cache) :
    (excludedV2 req = false →
      (∀ r, lookupCache c req.url = some r →
        handleFetchV2 net req c = ⟨Outcome.respond r, c⟩) ∧
      (lookupCache c req.url = none → ∀ r, net req = some r →
        (handleFetchV2 net req c).outcome = Outcome.respond r ∧
        (r.status = 200 ∧ r.rtype = RType.basic →
          (handleFetchV2 net req c).cacheAfter = putCache c req.url r ∧
          lookupCache (handleFetchV2 net req c).cacheAfter req.url
            = some r) ∧
        (¬(r.status = 200 ∧ r.rtype = RType.basic) →
          (handleFetchV2 net req c).cacheAfter = c))) ∧
    (excludedV1 req = false →
      (∀ r, lookupCache c req.url = some r →
        handleFetchV1 net req c = ⟨Outcome.respond r, c⟩) ∧
      (lookupCache c req.url = none → ∀ r, net req = some r →
        (handleFetchV1 net req c).outcome = Outcome.respond r ∧
        (r.status = 200 ∧ r.rtype = RType.basic →
          (handleFetchV1 net req c).cacheAfter = putCache c req.url r ∧
          lookupCache (handleFetchV1 net req c).cacheAfter req.url
            = some r) ∧
        (¬(r.status = 200 ∧ r.rtype = RType.basic) →
          (handleFetchV1 net req c).cacheAfter = c))) := by
  constructor
  · intro hex
    refine ⟨fun r hr => handleFetchV2_hit net req c r hex hr, ?_⟩
    intro hmiss r hnet
    by_cases hv : (r.status == 200 && (r.rtype == RType.basic)) = true
    · rw [handleFetchV2_miss_store net req c r hex hmiss hnet hv]
      refine ⟨rfl, fun _ => ⟨rfl, lookup_put_self c req.url r⟩, fun hc => ?_⟩
      exact absurd (by simpa using hv) hc
    · have hvf : (r.status == 200 && (r.rtype == RType.basic)) = false := by
        simpa using hv
      rw [handleFetchV2_miss_nostore net req c r hex hmiss hnet hvf]
      refine ⟨rfl, fun hp => ?_, fun _ => rfl⟩
      exact absurd (by simp [hp.1, hp.2]) hv
  · intro hex
    refine ⟨fun r hr => handleFetchV1_hit net req c r hex hr, ?_⟩
    intro hmiss r hnet
    by_cases hv : (r.status == 200 && (r.rtype == RType.basic)) = true
    · rw [handleFetchV1_miss_store net req c r hex hmiss hnet hv]
      refine ⟨rfl, fun _ => ⟨rfl, lookup_put_self c req.url r⟩, fun hc => ?_⟩
      exact absurd (by simpa using hv) hc
    · have hvf : (r.status == 200 && (r.rtype == RType.basic)) = false := by
        simpa using hv
      rw [handleFetchV1_miss_nostore net req c r hex hmiss hnet hvf]
      refine ⟨rfl, fun hp => ?_, fun _ => rfl⟩
      exact absurd (by simp [hp.1, hp.2]) hv

/-- Witness for C1 at a concrete app-asset request, empty store and a
network returning a 200 basic response. -/
theorem C1_app_asset_cache_first_witness :
    (handleFetchV2 netBasic reqOther emptyCache).outcome
      = Outcome.respond assetResp ∧
    lookupCache (handleFetchV2 netBasic reqOther emptyCache).cacheAfter
      reqOther.url = some assetResp := by
  have h :=
    ((C1_app_asset_cache_first netBasic reqOther emptyCache).1
      (by decide)).2 rfl assetResp rfl
  exact ⟨h.1, (h.2.1 (by decide)).2⟩

/-- C2 counterexample: a non-navigation request with no connectivity and
no cache hit yields the synthesized 503 response, but its body is the
fixed string "Offline - resource not available", not empty — refuting
the claim that the body is empty. -/
theorem C2_counterexample :
    (handleFetchV2 netNone reqOther emptyCache).outcome
      = Outcome.respond offlineResponse ∧
    offlineResponse.status = 503 ∧
    (offlineResponse.body == "") = false := by decide

/-- C2 (amended): for every non-navigation request with a failing
network fetch and no cache hit, the v2 handler returns a synthesized
response with status 503, status text "Service Unavailable" and the
fixed non-empty body "Offline - resource not available"; the v1 handler
instead resolves with no response at all. -/
theorem C2_offline_fallback (net : Request → Option Response)
    (req : Request) (c : Cache) :
    (excludedV2 req = false → (req.mode == "navigate") = false →
      lookupCache c req.url = none → net req = none →
      handleFetchV2 net req c = ⟨Outcome.respond offlineResponse, c⟩) ∧
    (excludedV1 req = false →
      lookupCache c req.url = none → net req = none →
      handleFetchV1 net req c = ⟨Outcome.respondAbsent, c⟩) := by
  constructor
  · intro hex hmode hmiss hnet
    simp [handleFetchV2, hex, hmiss, hnet, hmode]
  · intro hex hmiss hnet
    simp [handleFetchV1, hex, hmiss, hnet]

/-- Witness for the amended C2 at a concrete request and empty store. -/
theorem C2_offline_fallback_witness :
    handleFetchV2 netNone reqOther emptyCache
      = ⟨Outcome.respond offlineResponse, emptyCache⟩ ∧
    handleFetchV1 netNone reqOther emptyCache
      = ⟨Outcome.respondAbsent, emptyCache⟩ := by
  have h := C2_offline_fallback netNone reqOther emptyCache
  exact ⟨h.1 (by decide) (by decide) rfl rfl, h.2 (by decide) rfl rfl⟩

/-- C3 counterexample: with no connectivity every manifest fetch fails,
yet the install handler leaves the store empty, logs the failure, does
not request skip-waiting — and the promise handed to `waitUntil`
nevertheless resolves, because the `catch` swallows the rejection: the
install completes successfully, refuting "the install aborts ... and
the install does not complete successfully". -/
theorem C3_counterexample :
    netNoneU (BASE_PATH ++ "/index.html") = none ∧
    installHandlerV2 netNoneU emptyCache = ⟨emptyCache, false, true, true⟩ ∧
    (installHandlerV2 netNoneU emptyCache).installCompleted = true ∧
    (installHandlerV2 netNoneU emptyCache).skipWaitingRequested = false := by
  decide

/-- C3 (amended): if any single fetch in the app-shell manifest fails
during seeding, the seed fails as a whole (all-or-nothing: the store is
unchanged), the failure is logged, and skip-waiting is not requested;
however, because the catch handler swallows the rejection, the promise
given to `waitUntil` resolves and the install event itself completes
successfully. -/
theorem C3_seed_failure (net : String → Option Response) (c : Cache)
    (u : String) (hu : u ∈ urlsToCache) (hfail : net u = none) :
    installHandlerV2 net c = ⟨c, false, true, true⟩ := by
  have h := cacheAddAll_fail net urlsToCache c u hu hfail
  simp [installHandlerV2, h]

/-- Witness for the amended C3: offline seed over the v2 manifest. -/
theorem C3_seed_failure_witness :
    installHandlerV2 netNoneU emptyCache
      = ⟨emptyCache, false, true, true⟩ :=
  C3_seed_failure netNoneU emptyCache (BASE_PATH ++ "/index.html")
    (by decide) rfl

/-- C4: activation deletes every store whose name differs from the
current version tag `CACHE_NAME`, so every surviving store name equals
`CACHE_NAME`; and when no stale stores exist, activation changes
nothing. -/
theorem C4_activate_cleanup (stores : List String) :
    (∀ n ∈ activateHandlerV2 stores, n = CACHE_NAME) ∧
    ((∀ n ∈ stores, n = CACHE_NAME) → activateHandlerV2 stores = stores) := by
  constructor
  · intro n hn
    have h1 : n ∈ activateFirstV2 stores :=
      (List.mem_filter.mp hn).1
    have h2 := (List.mem_filter.mp h1).2
    simpa using h2
  · intro hall
    have h1 : activateFirstV2 stores = stores := by
      apply List.filter_eq_self.mpr
      intro n hn
      simp [hall n hn]
    rw [activateHandlerV2, h1]
    apply List.filter_eq_self.mpr
    intro n hn
    simp [hall n hn]

/-- Witness for C4: a stale v1 store is removed, the current store
survives, and activation over only the current store is a no-op. -/
theorem C4_activate_cleanup_witness :
    "raj-app-v2" = CACHE_NAME ∧
    activateHandlerV2 ["raj-app-v2"] = ["raj-app-v2"] := by
  refine ⟨?_, ?_⟩
  · exact (C4_activate_cleanup ["raj-app-v1", "raj-app-v2"]).1
      "raj-app-v2" (by decide)
  · exact (C4_activate_cleanup ["raj-app-v2"]).2 (by decide)

/-- C5: for every request matching the excluded-host set, the v2 handler
applies the per-host policy table: a gstatic SDK asset (hostname
containing "gstatic.com" and pathname containing "firebase") is classed
cache-first — a hit returns the stored response, a miss fetches the
network, in both cases without writing the store — and every other
excluded request is classed passthrough (not intercepted). -/
theorem C5_excluded_policy_table (net : Request → Option Response)
    (req : Request) (c : Cache) (hex : excludedV2 req = true) :
    (sdkAssetV2 req = true →
      classifyV2 req = ReqClass.sdkCacheFirst ∧
      (∀ r, lookupCache c req.url = some r →
        handleFetchV2 net req c = ⟨Outcome.respond r, c⟩) ∧
      (lookupCache c req.url = none → ∀ r, net req = some r →
        handleFetchV2 net req c = ⟨Outcome.respond r, c⟩)) ∧
    (sdkAssetV2 req = false →
      classifyV2 req = ReqClass.passthrough ∧
      handleFetchV2 net req c = ⟨Outcome.passthrough, c⟩) := by
  constructor
  · intro hsdk
    refine ⟨by simp [classifyV2, hex, hsdk], ?_, ?_⟩
    · intro r hr
      simp [handleFetchV2, hex, hsdk, hr]
    · intro hmiss r hnet
      simp [handleFetchV2, hex, hsdk, hmiss, hnet]
  · intro hsdk
    exact ⟨by simp [classifyV2, hex, hsdk],
      by simp [handleFetchV2, hex, hsdk]⟩

/-- Witness for C5: the gstatic SDK asset request is classed cache-first
and served from the store; the Firestore API request is passed through. -/
theorem C5_excluded_policy_table_witness :
    (classifyV2 reqSdk = ReqClass.sdkCacheFirst ∧
      handleFetchV2 netNone reqSdk cacheWithSdk
        = ⟨Outcome.respond sdkResp, cacheWithSdk⟩) ∧
    (classifyV2 reqApi = ReqClass.passthrough ∧
      handleFetchV2 netNone reqApi emptyCache
        = ⟨Outcome.passthrough, emptyCache⟩) := by
  constructor
  · have h := ((C5_excluded_policy_table netNone reqSdk cacheWithSdk
      (by decide)).1 (by decide))
    exact ⟨h.1, h.2.1 sdkResp (by decide)⟩
  · exact (C5_excluded_policy_table netNone reqApi emptyCache
      (by decide)).2 (by decide)

/-- C6 counterexample: the gstatic SDK asset request matches the
excluded-host set, yet the v2 handler reads the cache store — with the
asset cached it responds with the stored response, with an empty store
it falls to the network path — and it does not pass the request
through, refuting "no cache store is read ... and the request is
forwarded to the network unmodified". -/
theorem C6_counterexample :
    excludedV2 reqSdk = true ∧
    (handleFetchV2 netNone reqSdk cacheWithSdk).outcome
      = Outcome.respond sdkResp ∧
    (handleFetchV2 netNone reqSdk emptyCache).outcome
      = Outcome.respondError ∧
    ((handleFetchV2 netNone reqSdk cacheWithSdk).outcome
      == Outcome.passthrough) = false := by
  decide

/-- C6 (amended): for every request matching an excluded host other
than a gstatic SDK asset, the v2 handler passes the request through
unmodified with no cache read or write (the result is passthrough with
the store untouched, for every store state alike); a gstatic SDK asset
request instead reads the store cache-first but never writes it. -/
theorem C6_excluded_cache_effect (net : Request → Option Response)
    (req : Request) (c : Cache) (hex : excludedV2 req = true) :
    (sdkAssetV2 req = false →
      handleFetchV2 net req c = ⟨Outcome.passthrough, c⟩ ∧
      (∀ c2 : Cache, handleFetchV2 net req c2
        = ⟨Outcome.passthrough, c2⟩)) ∧
    (sdkAssetV2 req = true →
      (handleFetchV2 net req c).cacheAfter = c) := by
  constructor
  · intro hsdk
    refine ⟨by simp [handleFetchV2, hex, hsdk], fun c2 => ?_⟩
    simp [handleFetchV2, hex, hsdk]
  · intro hsdk
    simp only [handleFetchV2, hex, hsdk, if_true]
    cases hlk : lookupCache c req.url with
    | some r => simp
    | none =>
      cases hnet : net req with
      | some r => simp
      | none => simp

/-- Witness for the amended C6: the Firestore API request is passed
through with the store untouched; the SDK request leaves the store
unchanged. -/
theorem C6_excluded_cache_effect_witness :
    handleFetchV2 netNone reqApi emptyCache
      = ⟨Outcome.passthrough, emptyCache⟩ ∧
    (handleFetchV2 netNone reqSdk cacheWithSdk).cacheAfter
      = cacheWithSdk := by
  constructor
  · exact ((C6_excluded_cache_effect netNone reqApi emptyCache
      (by decide)).1 (by decide)).1
  · exact (C6_excluded_cache_effect netNone reqSdk cacheWithSdk
      (by decide)).2 (by decide)

/-- C7: a navigation-mode app request whose network fetch fails is
answered with the stored shell document whenever the shell document
(the index.html entry) has been seeded into the store. -/
theorem C7_nav_shell_fallback (net : Request → Option Response)
    (req : Request) (c : Cache) (r : Response)
    (hex : excludedV2 req = false)
    (hmode : (req.mode == "navigate") = true)
    (hmiss : lookupCache c req.url = none) (hnet : net req = none)
    (hshell : lookupCache c (BASE_PATH ++ "/index.html") = some r) :
    handleFetchV2 net req c = ⟨Outcome.respond r, c⟩ := by
  simp [handleFetchV2, hex, hmiss, hnet, hmode, hshell]

/-- Witness for C7: an offline navigation over a seeded store returns
the stored shell document response. -/
theorem C7_nav_shell_fallback_witness :
    handleFetchV2 netNone reqNav cacheShell
      = ⟨Outcome.respond shellResp, cacheShell⟩ :=
  C7_nav_shell_fallback netNone reqNav cacheShell shellResp
    (by decide) (by decide) (by decide) rfl (by decide)

/-- C8: after a successful seed (the install handler requested
skip-waiting, which happens exactly when `addAll` succeeded), looking
up every URL of the manifest in the resulting store is non-absent. -/
theorem C8_seed_all_present (net : String → Option Response) (c : Cache)
    (hok : (installHandlerV2 net c).skipWaitingRequested = true) :
    ∀ u ∈ urlsToCache,
      (lookupCache (installHandlerV2 net c).cacheAfter u).isSome
        = true := by
  intro u hu
  cases h : cacheAddAll net urlsToCache c with
  | none => simp [installHandlerV2, h] at hok
  | some c2 =>
    have hl := cacheAddAll_some_lookup net urlsToCache c c2 h u hu
    simpa [installHandlerV2, h] using hl

/-- Witness for C8: seeding over an available network leaves the shell
document present in the store. -/
theorem C8_seed_all_present_witness :
    (lookupCache (installHandlerV2 netOkU emptyCache).cacheAfter
      (BASE_PATH ++ "/index.html")).isSome = true :=
  C8_seed_all_present netOkU emptyCache (by decide)
    (BASE_PATH ++ "/index.html") (by decide)

/-- C9: excluded-host classification is substring containment on the
hostname: any request whose hostname contains "googleapis.com" or
"gstatic.com" anywhere is classified excluded and is not given the
app-asset cache-first treatment. -/
theorem C9_substring_exclusion (req : Request)
    (h : jsIncludes req.hostname "googleapis.com" = true ∨
         jsIncludes req.hostname "gstatic.com" = true) :
    excludedV2 req = true ∧
    (classifyV2 req == ReqClass.appAsset) = false := by
  have hex : excludedV2 req = true := by
    rcases h with h | h <;> simp [excludedV2, h]
  refine ⟨hex, ?_⟩
  by_cases hsdk : sdkAssetV2 req = true
  · simp [classifyV2, hex, hsdk]
    rfl
  · have hf : sdkAssetV2 req = false := by simpa using hsdk
    simp [classifyV2, hex, hf]
    rfl

/-- Witness for C9: the hostname "gstatic.com.attacker.example", which
merely contains "gstatic.com" as a substring, is classified excluded
and bypasses the app-asset path. -/
theorem C9_substring_exclusion_witness :
    excludedV2 reqSpoof = true ∧
    (classifyV2 reqSpoof == ReqClass.appAsset) = false :=
  C9_substring_exclusion reqSpoof (Or.inr (by decide))

/-- C10: in the v2 navigation fallback the disjunction of two promise
values short-circuits on the first, so the outcome is decided by the
index.html lookup alone; in particular when index.html is absent the
failed navigation resolves with no response even when the root document
is cached. -/
theorem C10_nav_fallback_index_only (net : Request → Option Response)
    (req : Request) (c : Cache) (hex : excludedV2 req = false)
    (hmode : (req.mode == "navigate") = true)
    (hmiss : lookupCache c req.url = none) (hnet : net req = none) :
    ((handleFetchV2 net req c).outcome =
      match lookupCache c (BASE_PATH ++ "/index.html") with
      | some r => Outcome.respond r
      | none => Outcome.respondAbsent) ∧
    (∀ r, lookupCache c (BASE_PATH ++ "/") = some r →
      lookupCache c (BASE_PATH ++ "/index.html") = none →
      (handleFetchV2 net req c).outcome = Outcome.respondAbsent) := by
  constructor
  · cases hidx : lookupCache c (BASE_PATH ++ "/index.html") with
    | some r => simp [handleFetchV2, hex, hmiss, hnet, hmode, hidx]
    | none => simp [handleFetchV2, hex, hmiss, hnet, hmode, hidx]
  · intro r _ hidx
    simp [handleFetchV2, hex, hmiss, hnet, hmode, hidx]

/-- Witness for C10: with only the root document cached, an offline
navigation resolves with no response. -/
theorem C10_nav_fallback_index_only_witness :
    (handleFetchV2 netNone reqNav cacheRootOnly).outcome
      = Outcome.respondAbsent :=
  (C10_nav_fallback_index_only netNone reqNav cacheRootOnly
    (by decide) (by decide) (by decide) rfl).2 rootResp (by decide)
    (by decide)
